import Mathlib

/-!
Shallow embedding of the repository source `src/element_set.py`, a Last-Writer-Wins
(LWW) element set backed by Redis sorted sets (ZSETs).

Modelling conventions, justified against the source:
* A timestamp is stored in Redis as the float `(timestamp - datetime(1970,1,1)).total_seconds()`
  (`ZSet.__setitem__`, lines 29-41).  We model stored scores as rationals (`Score := ℚ`);
  `datetime.fromtimestamp` (line 51) is the strictly monotone inverse of that conversion
  (the model takes the process clock/timezone to be UTC, so the round trip is exact), so
  comparing the datetimes `__getitem__` returns is the same as comparing the scores, and we
  carry the scores themselves.
* A Redis ZSET is a finite member→score table; we model it as an association list
  `List (String × Score)` where `zadd` upserts and `zscore` is lookup.  `keys` is `zrange 0 -1`;
  only list membership of the result is ever used, so the score ordering of `zrange` is dropped.
* The source is Python 2 (`xrange`, `basestring`, `exception.message`).  In `get`, the filter
  compares values of `__getitem__`, which can be `None` (a stored score of exactly `0` is falsy
  at line 51): Python 2 orders `None` strictly below every `datetime`, which `pyGt` models.
* `add`/`remove` (lines 95-148): `assert element` / `assert timestamp` raise `AssertionError`
  to the caller; a `ValueError` from `dateutil.parser.parse` is logged (`logging.error`) and
  the method returns `None`, exactly as on success.  The observable outcome of a call is
  therefore the new state, whether an assertion was raised, and whether a parse error was
  logged — packaged in `OpReturn`.  The timestamp parser is an external collaborator and is a
  parameter `parse : String → Option Score`.
* Python evaluates a default argument once, at function definition time.  The default
  `timestamp=datetime.utcnow().isoformat()` (lines 95, 123) is therefore the ISO rendering of
  the clock at module load, which parses back to that same instant.  `add`/`remove` take both
  `moduleLoadTs` (the once-captured default) and `callNow` (the wall clock at the call);
  faithfully to the source, the defaulted path uses `moduleLoadTs` and never reads `callNow`.
-/

set_option linter.unusedVariables false

namespace ElementSet

/-- A stored timestamp, as the total seconds relative to the epoch that
`ZSet.__setitem__` computes (line 40). -/
abbrev Score : Type := ℚ

/-- The member→score table of one Redis ZSET (`ZSet` of the source), as an association
list; `zadd` keeps member keys unique. -/
abbrev ZSet : Type := List (String × Score)

namespace ZSet

/-- Redis `ZADD` (line 41): upsert the score of a member. -/
def zadd : ZSet → String → Score → ZSet
  | [], e, s => [(e, s)]
  | (k, v) :: rest, e, s => if k = e then (e, s) :: rest else (k, v) :: zadd rest e s

/-- Redis `ZSCORE` (line 50): the stored score of a member, `none` if absent. -/
def zscore : ZSet → String → Option Score
  | [], _ => none
  | (k, v) :: rest, e => if k = e then some v else zscore rest e

/-- `ZSet.__getitem__` (lines 43-51): `datetime.fromtimestamp(timestamp) if timestamp else None`.
A stored score of exactly `0` is falsy in Python, so it is returned as `None` just like a
missing member; otherwise the score (standing for the reconstructed datetime) is returned. -/
def getitem (z : ZSet) (e : String) : Option Score :=
  match zscore z e with
  | none => none
  | some s => if s = 0 then none else some s

/-- `ZSet.__contains__` (lines 53-60): `True if self[element] else False` (a `datetime` is
always truthy, so this is exactly definedness of `getitem`). -/
def contains (z : ZSet) (e : String) : Bool :=
  (getitem z e).isSome

/-- `ZSet.keys` (lines 62-68): all members of the ZSET. -/
def keys (z : ZSet) : List String :=
  z.map Prod.fst

/-- The guarded compare-and-set shared by `add` (lines 119-120) and `remove` (lines 147-148):
`if element not in self.X_set or self.X_set[element] < timestamp: self.X_set[element] = timestamp`.
`element not in self.X_set` is `contains = false`, i.e. `getitem = none`. -/
def setIfNewer (z : ZSet) (e : String) (s : Score) : ZSet :=
  match getitem z e with
  | none => zadd z e s
  | some stored => if stored < s then zadd z e s else z

end ZSet

/-- `LastWriterWinsSet.__init__` (lines 84-93): two ZSETs, one for adds, one for removes. -/
structure LastWriterWinsSet where
  add_set : ZSet
  remove_set : ZSet
  deriving DecidableEq

/-- A freshly constructed set: both tables empty. -/
def LastWriterWinsSet.empty : LastWriterWinsSet :=
  ⟨[], []⟩

/-- How control returns to the caller of `add`/`remove`: either an `assert` raised
`AssertionError` (lines 110-111 and 138-139), or the method fell through and returned
`None` — which it does both on success and after a swallowed parse error. -/
inductive CallResult where
  | raisedAssertion
  | returnedNone
  deriving DecidableEq

/-- Everything a single `add`/`remove` call makes observable: the state of the two tables
afterwards, how control returned, and whether a parse failure was written to the log
(lines 115-117 and 143-145). -/
structure OpReturn where
  state : LastWriterWinsSet
  result : CallResult
  loggedParseError : Bool
  deriving DecidableEq

/-- Python 2 `>` on the optional datetimes `ZSet.__getitem__` returns (used by the filter in
`get`, line 181): `None` sorts strictly below every datetime, so `None > y` is `False` and
`x > None` is `True` for a datetime `x`. -/
def pyGt : Option Score → Option Score → Bool
  | some a, some b => decide (b < a)
  | some _, none => true
  | none, _ => false

namespace LastWriterWinsSet

/-- `LastWriterWinsSet.add` (lines 95-120).  `parse` is the `dateutil.parser.parse`
collaborator; `moduleLoadTs` is the instant captured once by the default argument
`timestamp=datetime.utcnow().isoformat()` at function definition time; `callNow` is the wall
clock at this call's entry, which the source never reads (the default-argument pitfall).
`timestamp = none` is a call that omits the argument; its ISO default string is non-empty and
parses back to `moduleLoadTs`. -/
def add (parse : String → Option Score) (moduleLoadTs callNow : Score)
    (st : LastWriterWinsSet) (element : String) (timestamp : Option String) : OpReturn :=
  if element = "" then ⟨st, CallResult.raisedAssertion, false⟩
  else
    match timestamp with
    | none =>
        ⟨⟨ZSet.setIfNewer st.add_set element moduleLoadTs, st.remove_set⟩,
          CallResult.returnedNone, false⟩
    | some s =>
        if s = "" then ⟨st, CallResult.raisedAssertion, false⟩
        else
          match parse s with
          | none => ⟨st, CallResult.returnedNone, true⟩
          | some sc =>
              ⟨⟨ZSet.setIfNewer st.add_set element sc, st.remove_set⟩,
                CallResult.returnedNone, false⟩

/-- `LastWriterWinsSet.remove` (lines 123-148): the same contract as `add`, targeting the
remove table. -/
def remove (parse : String → Option Score) (moduleLoadTs callNow : Score)
    (st : LastWriterWinsSet) (element : String) (timestamp : Option String) : OpReturn :=
  if element = "" then ⟨st, CallResult.raisedAssertion, false⟩
  else
    match timestamp with
    | none =>
        ⟨⟨st.add_set, ZSet.setIfNewer st.remove_set element moduleLoadTs⟩,
          CallResult.returnedNone, false⟩
    | some s =>
        if s = "" then ⟨st, CallResult.raisedAssertion, false⟩
        else
          match parse s with
          | none => ⟨st, CallResult.returnedNone, true⟩
          | some sc =>
              ⟨⟨st.add_set, ZSet.setIfNewer st.remove_set element sc⟩,
                CallResult.returnedNone, false⟩

/-- `LastWriterWinsSet.exists` (lines 150-167; `exists` is reserved in Lean, hence the name):
`element in self.add_set and (element not in self.remove_set or
self.add_set[element] > self.remove_set[element])`. -/
def existsElem (st : LastWriterWinsSet) (element : String) : Bool :=
  ZSet.contains st.add_set element
    && (!ZSet.contains st.remove_set element
        || pyGt (ZSet.getitem st.add_set element) (ZSet.getitem st.remove_set element))

/-- `LastWriterWinsSet.get` (lines 169-181): `list(set(add.keys()) - set(remove.keys()))`
followed by the members of the key intersection whose `__getitem__` values satisfy the
Python `>` filter.  `set(...)` is modelled by `dedup` of the key list; only membership of
the result is order-relevant. -/
def get (st : LastWriterWinsSet) : List String :=
  ((ZSet.keys st.add_set).dedup.filter
      (fun e => decide (e ∉ ZSet.keys st.remove_set)))
    ++ (((ZSet.keys st.add_set).dedup.filter
          (fun e => decide (e ∈ ZSet.keys st.remove_set))).filter
        (fun e => pyGt (ZSet.getitem st.add_set e) (ZSet.getitem st.remove_set e)))

end LastWriterWinsSet

/-- The state reached from a fresh set by `add("x", "1970-01-01T00:00:00")`: the parsed
timestamp is the Unix epoch, stored as score `0`. -/
def epochAddState : LastWriterWinsSet :=
  ⟨ZSet.setIfNewer [] "x" 0, []⟩

/-- Modelled from the spec: §3 of the spec defines each logical table as a mapping from
element to timestamp, and the repository source under `src/` contains no merge operation at
all (the spec flags `merge` in §4.1 as a design addition with no equivalent code to port).
A replica table is that mapping. -/
abbrev Table : Type := String → Option Score

/-- Modelled from the spec: `merge(other_replica)` takes, per element, the maximum timestamp
seen in either replica's corresponding table (spec §4.1); an element present in only one
table keeps its timestamp. -/
def mergeTable (f g : Table) : Table := fun e =>
  match f e, g e with
  | none, v => v
  | some a, none => some a
  | some a, some b => some (max a b)

/-- Modelled from the spec: a replica's state is its add-table and remove-table (§3, §4.1). -/
structure Replica where
  add_table : Table
  remove_table : Table

/-- Modelled from the spec: merging another replica into this one merges the two add-tables
and the two remove-tables pointwise by maximum (§4.1). -/
def Replica.merge (r o : Replica) : Replica :=
  ⟨mergeTable r.add_table o.add_table, mergeTable r.remove_table o.remove_table⟩

/-! ## Lemmas about the ZSET model -/

theorem ZSet.zadd_zadd (z : ZSet) (e : String) (s t : Score) :
    ZSet.zadd (ZSet.zadd z e s) e t = ZSet.zadd z e t := by
  induction z with
  | nil => simp [ZSet.zadd]
  | cons kv rest ih =>
      obtain ⟨k, v⟩ := kv
      by_cases hk : k = e
      · subst hk
        simp [ZSet.zadd]
      · simp [ZSet.zadd, hk, ih]

theorem ZSet.zscore_zadd_self (z : ZSet) (e : String) (s : Score) :
    ZSet.zscore (ZSet.zadd z e s) e = some s := by
  induction z with
  | nil => simp [ZSet.zadd, ZSet.zscore]
  | cons kv rest ih =>
      obtain ⟨k, v⟩ := kv
      by_cases hk : k = e
      · subst hk
        simp [ZSet.zadd, ZSet.zscore]
      · simp [ZSet.zadd, ZSet.zscore, hk, ih]

theorem ZSet.getitem_zadd_self (z : ZSet) (e : String) (s : Score) :
    ZSet.getitem (ZSet.zadd z e s) e = if s = 0 then none else some s := by
  unfold ZSet.getitem
  rw [ZSet.zscore_zadd_self]

theorem ZSet.mem_keys_of_zscore_some (z : ZSet) (e : String) (s : Score)
    (h : ZSet.zscore z e = some s) : e ∈ ZSet.keys z := by
  induction z with
  | nil => simp [ZSet.zscore] at h
  | cons kv rest ih =>
      obtain ⟨k, v⟩ := kv
      by_cases hk : k = e
      · subst hk
        simp [ZSet.keys]
      · simp only [ZSet.zscore] at h
        rw [if_neg hk] at h
        simp only [ZSet.keys, List.map_cons, List.mem_cons]
        exact Or.inr (ih h)

theorem ZSet.not_mem_keys_of_zscore_none (z : ZSet) (e : String)
    (h : ZSet.zscore z e = none) : e ∉ ZSet.keys z := by
  induction z with
  | nil => simp [ZSet.keys]
  | cons kv rest ih =>
      obtain ⟨k, v⟩ := kv
      by_cases hk : k = e
      · subst hk
        simp [ZSet.zscore] at h
      · simp only [ZSet.zscore] at h
        rw [if_neg hk] at h
        simp only [ZSet.keys, List.map_cons, List.mem_cons]
        intro hmem
        rcases hmem with h1 | h2
        · exact hk h1.symm
        · exact ih h h2

/-- The state after two identical compare-and-sets coincides with the state after one. -/
theorem ZSet.setIfNewer_idem (z : ZSet) (e : String) (s : Score) :
    ZSet.setIfNewer (ZSet.setIfNewer z e s) e s = ZSet.setIfNewer z e s := by
  have key : ZSet.setIfNewer (ZSet.zadd z e s) e s = ZSet.zadd z e s := by
    unfold ZSet.setIfNewer
    rw [ZSet.getitem_zadd_self]
    by_cases hs : s = 0
    · simp [hs, ZSet.zadd_zadd]
    · simp [hs]
  cases h : ZSet.getitem z e with
  | none =>
      have h1 : ZSet.setIfNewer z e s = ZSet.zadd z e s := by
        unfold ZSet.setIfNewer
        rw [h]
      rw [h1, key]
  | some stored =>
      by_cases hlt : stored < s
      · have h1 : ZSet.setIfNewer z e s = ZSet.zadd z e s := by
          unfold ZSet.setIfNewer
          rw [h]
          simp [hlt]
        rw [h1, key]
      · have h1 : ZSet.setIfNewer z e s = z := by
          unfold ZSet.setIfNewer
          rw [h]
          simp [hlt]
        rw [h1, h1]

/-! ## Lemmas about the spec-modelled merge -/

theorem mergeTable_comm (f g : Table) : mergeTable f g = mergeTable g f := by
  funext e
  unfold mergeTable
  cases f e <;> cases g e <;> simp [max_comm]

theorem mergeTable_assoc (f g h : Table) :
    mergeTable (mergeTable f g) h = mergeTable f (mergeTable g h) := by
  funext e
  unfold mergeTable
  cases f e <;> cases g e <;> cases h e <;> simp [max_assoc]

theorem mergeTable_self (f : Table) : mergeTable f f = f := by
  funext e
  unfold mergeTable
  cases f e <;> simp

theorem Replica.merge_comm (r o : Replica) : Replica.merge r o = Replica.merge o r := by
  unfold Replica.merge
  rw [mergeTable_comm r.add_table o.add_table,
    mergeTable_comm r.remove_table o.remove_table]

theorem Replica.merge_assoc (a b c : Replica) :
    Replica.merge (Replica.merge a b) c = Replica.merge a (Replica.merge b c) := by
  unfold Replica.merge
  rw [mergeTable_assoc, mergeTable_assoc]

theorem Replica.merge_self (r : Replica) : Replica.merge r r = r := by
  unfold Replica.merge
  rw [mergeTable_self, mergeTable_self]

/-! ## Claim theorems -/

/-- C1: the exists contract — "exists(e) returns true iff e has an add-table entry and (no
remove-table entry or add-table[e] > remove-table[e])" — fails on the code at a reachable
state.  After `add("x", "1970-01-01T00:00:00")` the add-table maps `"x"` to the epoch
(score `0`) and the remove-table has no entry for `"x"`, so the claim requires
`exists("x") = true`; the code returns `false`, because `ZSet.__getitem__` treats the stored
score `0.0` as falsy and `__contains__` therefore reports the element as absent. -/
theorem exists_false_despite_add_entry :
    ZSet.zscore epochAddState.add_set "x" = some 0
    ∧ ZSet.zscore epochAddState.remove_set "x" = none
    ∧ LastWriterWinsSet.existsElem epochAddState "x" = false := by
  decide

/-- C2: at the same reachable epoch state, `get()` returns `["x"]` (the keys enumeration
does see the score-`0` member) while `exists("x")` is `false`, so `get()` is not the set
`{e : exists(e) = true}` as the claim requires. -/
theorem get_disagrees_with_exists_at_epoch :
    LastWriterWinsSet.get epochAddState = ["x"]
    ∧ LastWriterWinsSet.existsElem epochAddState "x" = false := by
  decide

/-- C3: the monotone-maximum contract of `add` fails on the code.  Submitting the epoch
(score `0`) and then one second before the epoch (score `-1`) leaves the add-table entry at
`-1`, although the maximum timestamp submitted is `0` and the second call — whose timestamp
is strictly less than the stored one — was required to be a no-op: the stored score `0` is
falsy, so `element not in self.add_set` is true and the older timestamp overwrites. -/
theorem add_table_not_max_after_epoch :
    ZSet.zscore (ZSet.setIfNewer (ZSet.setIfNewer [] "x" 0) "x" (-1)) "x" = some (-1)
    ∧ max (0 : Score) (-1) = 0 := by
  decide

/-- C4: on a timestamp that fails to parse, the tables are indeed left unchanged and the
failure is logged, but the call returns `None` — `CallResult.returnedNone`, the very same
result every successful call produces — so the failure is not reported to the caller as
part of the call's result. -/
theorem parse_failure_logged_not_reported :
    LastWriterWinsSet.add (fun _ => none) 0 0 LastWriterWinsSet.empty "x" (some "not-a-date")
      = ⟨LastWriterWinsSet.empty, CallResult.returnedNone, true⟩
    ∧ LastWriterWinsSet.remove (fun _ => none) 0 0 LastWriterWinsSet.empty "x"
        (some "not-a-date")
      = ⟨LastWriterWinsSet.empty, CallResult.returnedNone, true⟩
    ∧ (LastWriterWinsSet.add (fun _ => some 1) 0 0 LastWriterWinsSet.empty "x"
        (some "2026-01-01")).result
      = CallResult.returnedNone := by
  decide

/-- C5: the defaulted timestamp is the module-load instant, not the wall clock of the call.
With the default captured at time `100`, a defaulted `add("x")` at wall-clock time `200`
and a subsequent defaulted `add("y")` at wall-clock time `300` both store `100`, and a
defaulted call's outcome is identical whatever the wall clock at the call reads. -/
theorem default_timestamp_captured_once :
    (LastWriterWinsSet.add (fun _ => none) 100 200 LastWriterWinsSet.empty "x" none).state
      = ⟨[("x", 100)], []⟩
    ∧ (LastWriterWinsSet.add (fun _ => none) 100 300
        (LastWriterWinsSet.add (fun _ => none) 100 200 LastWriterWinsSet.empty
          "x" none).state "y" none).state
      = ⟨[("x", 100), ("y", 100)], []⟩
    ∧ LastWriterWinsSet.add (fun _ => none) 100 200 LastWriterWinsSet.empty "x" none
      = LastWriterWinsSet.add (fun _ => none) 100 300 LastWriterWinsSet.empty "x" none := by
  decide

/-- C6: Invariant I1 fails on the code: a successful `add` can move a table entry's
timestamp backward.  After submitting the epoch (score `0`), submitting score `-1` for the
same element overwrites, and the stored timestamp decreases from `0` to `-1`. -/
theorem entry_timestamp_decreases_at_epoch :
    ZSet.zscore (ZSet.setIfNewer [] "x" 0) "x" = some 0
    ∧ ZSet.zscore (ZSet.setIfNewer (ZSet.setIfNewer [] "x" 0) "x" (-1)) "x" = some (-1)
    ∧ ((-1 : Score) < 0) := by
  decide

/-- C7: `add(e, t)` followed by the identical `add(e, t)` produces exactly the outcome of
the single call: the second call leaves the add-table entry (indeed the whole observable
outcome) unchanged, for every parser, default, wall clock, starting state, element and
timestamp argument. -/
theorem add_idempotent (parse : String → Option Score) (m n : Score)
    (st : LastWriterWinsSet) (e : String) (ts : Option String) :
    LastWriterWinsSet.add parse m n (LastWriterWinsSet.add parse m n st e ts).state e ts
      = LastWriterWinsSet.add parse m n st e ts := by
  by_cases he : e = ""
  · simp [LastWriterWinsSet.add, he]
  · cases ts with
    | none => simp [LastWriterWinsSet.add, he, ZSet.setIfNewer_idem]
    | some s =>
        by_cases hs : s = ""
        · simp [LastWriterWinsSet.add, he, hs]
        · cases hp : parse s with
          | none => simp [LastWriterWinsSet.add, he, hs, hp]
          | some sc => simp [LastWriterWinsSet.add, he, hs, hp, ZSet.setIfNewer_idem]

/-- C8: an empty element is rejected by the leading `assert element` before any table
mutation and before timestamp handling: both tables are unchanged, the `AssertionError`
propagates to the caller immediately, and nothing is logged — for `add` and for `remove`,
whatever the parser, default, wall clock, state and timestamp argument. -/
theorem empty_element_rejected (parse : String → Option Score) (m n : Score)
    (st : LastWriterWinsSet) (ts : Option String) :
    LastWriterWinsSet.add parse m n st "" ts = ⟨st, CallResult.raisedAssertion, false⟩
    ∧ LastWriterWinsSet.remove parse m n st "" ts
      = ⟨st, CallResult.raisedAssertion, false⟩ := by
  constructor
  · simp [LastWriterWinsSet.add]
  · simp [LastWriterWinsSet.remove]

/-- C9: for any table state whose add-table stores exactly the epoch (score `0`, falsy) for
`e`, the lookup `__getitem__` returns `None`, the containment test reports `e` absent, and
`exists(e)` is `false`; yet when `e` has no remove-table entry, `get()` still returns `e`
(its keys enumeration does see the member), so `exists` and `get` disagree on `e`. -/
theorem epoch_entry_treated_absent (st : LastWriterWinsSet) (e : String)
    (h : ZSet.zscore st.add_set e = some 0)
    (hr : ZSet.zscore st.remove_set e = none) :
    ZSet.getitem st.add_set e = none
    ∧ ZSet.contains st.add_set e = false
    ∧ LastWriterWinsSet.existsElem st e = false
    ∧ e ∈ LastWriterWinsSet.get st := by
  have hg : ZSet.getitem st.add_set e = none := by
    simp [ZSet.getitem, h]
  have hc : ZSet.contains st.add_set e = false := by
    simp [ZSet.contains, hg]
  refine ⟨hg, hc, ?_, ?_⟩
  · simp [LastWriterWinsSet.existsElem, hc]
  · have hmem : e ∈ (ZSet.keys st.add_set).dedup :=
      List.mem_dedup.mpr (ZSet.mem_keys_of_zscore_some st.add_set e 0 h)
    have hnot : e ∉ ZSet.keys st.remove_set :=
      ZSet.not_mem_keys_of_zscore_none st.remove_set e hr
    unfold LastWriterWinsSet.get
    refine List.mem_append_left _ ?_
    refine List.mem_filter.mpr ⟨hmem, ?_⟩
    simp [hnot]

/-- Witness for C9 at the reachable state after `add("x", "1970-01-01T00:00:00")`. -/
theorem epoch_entry_treated_absent_witness :
    ZSet.zscore epochAddState.add_set "x" = some 0
    ∧ ZSet.zscore epochAddState.remove_set "x" = none
    ∧ (ZSet.getitem epochAddState.add_set "x" = none
        ∧ ZSet.contains epochAddState.add_set "x" = false
        ∧ LastWriterWinsSet.existsElem epochAddState "x" = false
        ∧ "x" ∈ LastWriterWinsSet.get epochAddState) :=
  ⟨by decide, by decide,
    epoch_entry_treated_absent epochAddState "x" (by decide) (by decide)⟩

/-- C10 (spec-modelled, the source has no merge): the per-element-maximum merge of replica
states is commutative — so two replicas that each received a disjoint subset of the
operations converge to identical tables whichever direction they merge — as well as
associative and idempotent. -/
theorem merge_crdt_convergence :
    (∀ r o : Replica, Replica.merge r o = Replica.merge o r)
    ∧ (∀ a b c : Replica, Replica.merge (Replica.merge a b) c
        = Replica.merge a (Replica.merge b c))
    ∧ (∀ r : Replica, Replica.merge r r = r) :=
  ⟨Replica.merge_comm, Replica.merge_assoc, Replica.merge_self⟩

end ElementSet
